import Mathlib

/-
  Verification of the Anonyma anonymous-messaging platform against its
  natural-language specification.

  The development shallowly embeds the data model and the operations of the
  repository: the client message payload type and rendering logic from the
  React frontend (src/frontend), the durable relational schema from the
  complete schema migration (20240101000000_complete_schema.sql, the
  migration named by the backend README), and the client-side hooks for
  typing debouncing, drafts and server-sent events.  Backend behaviours
  whose Rust sources are not present in the snapshot (the anonymity filter,
  the routing service, the reaction upsert, the typing-indicator sweep and
  the event emitter) are modelled from the specification; each such
  definition carries a doc comment starting with "Modelled from the spec:".
-/

namespace Anonyma

/-! ## Client message payload (src/frontend/src/lib/api.ts, Message interface) -/

/-- The Message payload delivered to clients, mirroring the TypeScript
interface Message of src/frontend/src/lib/api.ts: fields id, thread_id,
content, is_mine, created_at, is_read, and the optional fields reactions,
unread_count, to_username, edited_at, read_at, deleted_at.  Optional
TypeScript fields become Option. -/
structure Message where
  id : String
  thread_id : String
  content : String
  is_mine : Bool
  created_at : String
  is_read : Bool
  reactions : Option (List (String × Nat))
  unread_count : Option Nat
  to_username : Option String
  edited_at : Option String
  read_at : Option String
  deleted_at : Option String
deriving DecidableEq

/-- The field names of the Message interface in src/frontend/src/lib/api.ts,
in declaration order.  This is the complete set of JSON keys a client
message payload can carry. -/
def messageFieldNames : List String :=
  ["id", "thread_id", "content", "is_mine", "created_at", "is_read",
   "reactions", "unread_count", "to_username", "edited_at", "read_at",
   "deleted_at"]

/-- The per-message sender label rendered by ConversationView.tsx (line 302):
"You" for an own message, otherwise the thread-level toUsername prop if
provided, else the placeholder "Anonymous Agent". -/
def senderLabel (isMine : Bool) (toUsername : Option String) : String :=
  if isMine then "You" else toUsername.getD "Anonymous Agent"

/-! ## Durable store schema
    (complete schema migration 20240101000000_complete_schema.sql) -/

/-- The columns of the messages table in the complete schema migration,
in declaration order; the Boolean records whether the column is NOT NULL. -/
def messagesColumns : List (String × Bool) :=
  [("id", true), ("thread_id", true), ("recipient_id", true),
   ("sender_id", false), ("content", true), ("created_at", true),
   ("is_read", true), ("read_at", false), ("edited_at", false),
   ("deleted_at", false), ("deleted_by", false)]

/-- A row of the messages table of the complete schema migration.  Nullable
columns become Option; timestamps are kept as opaque strings, matching how
the client receives them. -/
structure StoredMessage where
  id : String
  thread_id : String
  recipient_id : String
  sender_id : Option String
  content : String
  created_at : String
  is_read : Bool
  read_at : Option String
  edited_at : Option String
  deleted_at : Option String
  deleted_by : Option String
deriving DecidableEq

/-! ## Anonymity filter -/

/-- Modelled from the spec: the Anonymity Filter contract present(message,
viewerId) of section 4.2 (the backend presentation code, backend/src/api.rs,
is not part of the source snapshot).  It always includes id, thread_id,
content, created_at and the read/edit/delete markers and reactions, sets
is_mine to (sender_id == viewerId), includes to_username (the recipient's
display name) only if the viewer is the sender, and never includes sender
identity otherwise.  The result is the client Message payload type, which
has no sender fields at all. -/
def present (m : StoredMessage) (viewerId : String) (recipientUsername : String)
    (reactionCounts : Option (List (String × Nat))) : Message :=
  { id := m.id
    thread_id := m.thread_id
    content := m.content
    is_mine := decide (m.sender_id = some viewerId)
    created_at := m.created_at
    is_read := m.is_read
    reactions := reactionCounts
    unread_count := none
    to_username :=
      if m.sender_id = some viewerId then some recipientUsername else none
    edited_at := m.edited_at
    read_at := m.read_at
    deleted_at := m.deleted_at }

/-! ## Theorems for claims C1, C2, C3 -/

/-- C1: for every message M and every viewer V that is not the sender of M,
the presentation of M to V carries no sender_id, no sender username and no
sender avatar field (the client Message payload has no such JSON keys at
all), is_mine is false, to_username is absent, and the rendered sender
label is the anonymous placeholder "Anonymous Agent". -/
theorem present_hides_sender_from_non_sender
    (m : StoredMessage) (v rn : String) (rc : Option (List (String × Nat)))
    (h : m.sender_id ≠ some v) :
    "sender_id" ∉ messageFieldNames ∧
    "sender_username" ∉ messageFieldNames ∧
    "sender_avatar" ∉ messageFieldNames ∧
    (present m v rn rc).is_mine = false ∧
    (present m v rn rc).to_username = none ∧
    senderLabel (present m v rn rc).is_mine (present m v rn rc).to_username =
      "Anonymous Agent" := by
  refine ⟨by decide, by decide, by decide, ?_, ?_, ?_⟩
  · simp [present, h]
  · simp [present, h]
  · simp [present, senderLabel, h, Option.getD]

/-- Witness for C1 at a concrete stored message and viewer. -/
theorem present_hides_sender_from_non_sender_witness :
    "sender_id" ∉ messageFieldNames ∧
    "sender_username" ∉ messageFieldNames ∧
    "sender_avatar" ∉ messageFieldNames ∧
    (present
        { id := "m1", thread_id := "t1", recipient_id := "bob",
          sender_id := some "alice", content := "hello",
          created_at := "2024-01-01", is_read := false, read_at := none,
          edited_at := none, deleted_at := none, deleted_by := none }
        "bob" "bob" none).is_mine = false ∧
    (present
        { id := "m1", thread_id := "t1", recipient_id := "bob",
          sender_id := some "alice", content := "hello",
          created_at := "2024-01-01", is_read := false, read_at := none,
          edited_at := none, deleted_at := none, deleted_by := none }
        "bob" "bob" none).to_username = none ∧
    senderLabel
      (present
        { id := "m1", thread_id := "t1", recipient_id := "bob",
          sender_id := some "alice", content := "hello",
          created_at := "2024-01-01", is_read := false, read_at := none,
          edited_at := none, deleted_at := none, deleted_by := none }
        "bob" "bob" none).is_mine
      (present
        { id := "m1", thread_id := "t1", recipient_id := "bob",
          sender_id := some "alice", content := "hello",
          created_at := "2024-01-01", is_read := false, read_at := none,
          edited_at := none, deleted_at := none, deleted_by := none }
        "bob" "bob" none).to_username = "Anonymous Agent" :=
  present_hides_sender_from_non_sender
    { id := "m1", thread_id := "t1", recipient_id := "bob",
      sender_id := some "alice", content := "hello",
      created_at := "2024-01-01", is_read := false, read_at := none,
      edited_at := none, deleted_at := none, deleted_by := none }
    "bob" "bob" none (by decide)

/-- C2: the messages relation of the durable store has exactly the columns
id, thread_id, recipient_id, sender_id, content, created_at, is_read,
read_at, edited_at, deleted_at, deleted_by, in that order; thread_id is
NOT NULL, sender_id is a stored column, and sender_id is not among the
fields of the client Message payload (never serialized to the recipient). -/
theorem messages_schema_fields :
    messagesColumns.map Prod.fst =
      ["id", "thread_id", "recipient_id", "sender_id", "content",
       "created_at", "is_read", "read_at", "edited_at", "deleted_at",
       "deleted_by"] ∧
    ("thread_id", true) ∈ messagesColumns ∧
    "sender_id" ∈ messagesColumns.map Prod.fst ∧
    "sender_id" ∉ messageFieldNames := by
  decide

/-- C3: the presented message view includes to_username exactly when the
viewer is the sender of the message; for every non-sender viewer the field
is absent. -/
theorem present_to_username_iff_sender
    (m : StoredMessage) (v rn : String) (rc : Option (List (String × Nat))) :
    ((present m v rn rc).to_username.isSome = true ↔ m.sender_id = some v) ∧
    (m.sender_id ≠ some v → (present m v rn rc).to_username = none) ∧
    (m.sender_id = some v → (present m v rn rc).to_username = some rn) := by
  refine ⟨?_, ?_, ?_⟩
  · by_cases h : m.sender_id = some v <;> simp [present, h]
  · intro h; simp [present, h]
  · intro h; simp [present, h]

/-- Witness for C3 at a concrete stored message, exercised both with the
sender and with the recipient as viewer. -/
theorem present_to_username_iff_sender_witness :
    ((present
        { id := "m1", thread_id := "t1", recipient_id := "bob",
          sender_id := some "alice", content := "hello",
          created_at := "2024-01-01", is_read := false, read_at := none,
          edited_at := none, deleted_at := none, deleted_by := none }
        "alice" "bob" none).to_username = some "bob") ∧
    ((present
        { id := "m1", thread_id := "t1", recipient_id := "bob",
          sender_id := some "alice", content := "hello",
          created_at := "2024-01-01", is_read := false, read_at := none,
          edited_at := none, deleted_at := none, deleted_by := none }
        "bob" "bob" none).to_username = none) :=
  ⟨(present_to_username_iff_sender
      { id := "m1", thread_id := "t1", recipient_id := "bob",
        sender_id := some "alice", content := "hello",
        created_at := "2024-01-01", is_read := false, read_at := none,
        edited_at := none, deleted_at := none, deleted_by := none }
      "alice" "bob" none).2.2 (by decide),
   (present_to_username_iff_sender
      { id := "m1", thread_id := "t1", recipient_id := "bob",
        sender_id := some "alice", content := "hello",
        created_at := "2024-01-01", is_read := false, read_at := none,
        edited_at := none, deleted_at := none, deleted_by := none }
      "bob" "bob" none).2.1 (by decide)⟩

/-! ## Reactions -/

/-- A reaction target: either a message or a broadcast comment, matching the
spec data model "(message_id or comment_id, user_id, emoji)" and the tables
message_reactions and broadcast_comment_reactions of the complete schema. -/
inductive ReactTarget
  | message (id : String)
  | comment (id : String)
deriving DecidableEq

/-- A reaction row: target, user_id, emoji, as in the message_reactions and
broadcast_comment_reactions tables of the complete schema migration, both
of which carry UNIQUE(target, user_id). -/
structure ReactionRow where
  target : ReactTarget
  user_id : String
  emoji : String
deriving DecidableEq

/-- Modelled from the spec: the react upsert of the Routing Service (the
backend react handler, backend/src/api.rs, is not part of the source
snapshot).  One active emoji reaction per user per target; re-reacting
overwrites, matching the UNIQUE(target, user) constraint: any previous row
of the same (target, user) pair is replaced by a single row carrying the
new emoji. -/
def react (rows : List ReactionRow) (t : ReactTarget) (u e : String) :
    List ReactionRow :=
  { target := t, user_id := u, emoji := e } ::
    rows.filter (fun r => !(decide (r.target = t) && decide (r.user_id = u)))

/-- Folding a sequence of react calls by one user on one target over an
initial store state. -/
def reactSeq (rows : List ReactionRow) (t : ReactTarget) (u : String)
    (es : List String) : List ReactionRow :=
  es.foldl (fun st e => react st t u e) rows

/-- The reaction rows stored for a given (target, user) pair. -/
def rowsFor (rows : List ReactionRow) (t : ReactTarget) (u : String) :
    List ReactionRow :=
  rows.filter (fun r => decide (r.target = t) && decide (r.user_id = u))

/-- After a single react call, the (target, user) pair holds exactly the one
new row. -/
theorem rowsFor_react (rows : List ReactionRow) (t : ReactTarget) (u e : String) :
    rowsFor (react rows t u e) t u = [{ target := t, user_id := u, emoji := e }] := by
  simp only [rowsFor, react, List.filter_cons]
  simp only [decide_True, Bool.and_self, if_pos]
  congr 1
  rw [List.filter_filter]
  apply List.filter_eq_nil_iff.2
  intro r _
  by_cases ht : r.target = t <;> by_cases hu : r.user_id = u <;>
    simp [ht, hu]

/-- C4: after any finite sequence of react calls by the same user on the
same target (written as es ++ [e], so e is the last call's emoji), the
stored state contains exactly one reaction row for that (user, target)
pair, and its emoji is the argument of the last call. -/
theorem react_last_write_wins (rows : List ReactionRow) (t : ReactTarget)
    (u : String) (es : List String) (e : String) :
    rowsFor (reactSeq rows t u (es ++ [e])) t u =
      [{ target := t, user_id := u, emoji := e }] := by
  simp only [reactSeq, List.foldl_append, List.foldl_cons, List.foldl_nil]
  exact rowsFor_react _ t u e

/-! ## Typing indicator expiry -/

/-- The staleness threshold of the typing-indicator store: 10 seconds, as in
the backend README ("Deletes indicators older than 10 seconds") and the
spec. -/
def stalenessThreshold : Nat := 10

/-- Modelled from the spec: presence of a typing indicator created by a
signal at time t0 with no further signal, observed at time t, given the
times at which the background sweep ran (the backend sweep task is not part
of the source snapshot).  A sweep at time s deletes the entry exactly when
s - t0 > stalenessThreshold; the indicator is ACTIVE at t exactly when no
sweep at or before t has deleted it. -/
def indicatorActive (t0 : Nat) (sweeps : List Nat) (t : Nat) : Bool :=
  sweeps.all (fun s => !(decide (s ≤ t) && decide (t0 + stalenessThreshold < s)))

/-- C5: for a signal at time t0 with no further signal for the same
(thread, user) pair, the indicator is ACTIVE at every time in
[t0, t0 + stalenessThreshold), and ABSENT at every time at or beyond
t0 + stalenessThreshold + one sweep interval, provided the sweep task ran
at least once within the interval after the entry became stale. -/
theorem typing_indicator_expiry (t0 interval t1 t2 : Nat) (sweeps : List Nat)
    (_h1 : t0 ≤ t1) (h2 : t1 < t0 + stalenessThreshold)
    (hsw : ∃ s ∈ sweeps, t0 + stalenessThreshold < s ∧
             s ≤ t0 + stalenessThreshold + interval)
    (h3 : t0 + stalenessThreshold + interval ≤ t2) :
    indicatorActive t0 sweeps t1 = true ∧ indicatorActive t0 sweeps t2 = false := by
  constructor
  · simp only [indicatorActive, List.all_eq_true]
    intro s _
    simp only [Bool.not_eq_true', Bool.and_eq_false_iff, decide_eq_false_iff_not,
      not_le, not_lt]
    by_cases hs : s ≤ t1
    · right; omega
    · left; omega
  · simp only [indicatorActive]
    rw [List.all_eq_false]
    obtain ⟨s, hmem, hgt, hle⟩ := hsw
    refine ⟨s, hmem, ?_⟩
    have hs2 : s ≤ t2 := by omega
    simp [hs2, hgt]

/-- Witness for C5: signal at t0 = 0, sweep interval 2, sweeps every 2
seconds; ACTIVE at t = 5, ABSENT at t = 12. -/
theorem typing_indicator_expiry_witness :
    indicatorActive 0 [2, 4, 6, 8, 10, 12] 5 = true ∧
    indicatorActive 0 [2, 4, 6, 8, 10, 12] 12 = false :=
  typing_indicator_expiry 0 2 5 12 [2, 4, 6, 8, 10, 12]
    (by decide) (by decide) ⟨12, by decide, by decide, by decide⟩ (by decide)

/-! ## Client typing debouncer (src/frontend/src/hooks/useTypingIndicator.ts) -/

/-- The mutable ref state of useTypingIndicator: lastSentRef, the timestamp
in milliseconds of the last sendTyping network request, initially 0. -/
structure TypingSendState where
  lastSent : Nat
deriving DecidableEq

/-- The sendTypingIndicator callback of useTypingIndicator.ts: returns
without sending when the hook is disabled or the thread id is empty, or
when now - lastSent < 3000; otherwise records now in lastSentRef and issues
the network request.  The Boolean in the result records whether a request
was issued.  Nat subtraction truncates at 0, which agrees with the
JavaScript comparison for every clock reading. -/
def sendTypingIndicator (enabled : Bool) (threadId : String)
    (st : TypingSendState) (now : Nat) : TypingSendState × Bool :=
  if enabled = false ∨ threadId = "" then (st, false)
  else if now - st.lastSent < 3000 then (st, false)
  else ({ lastSent := now }, true)

/-- Runs a sequence of handleTyping invocations (each of which calls
sendTypingIndicator; the 3-second timeout it also sets has an empty body)
at the given clock times, returning the final ref state and the times at
which network requests were issued. -/
def runTypingCalls (enabled : Bool) (threadId : String) :
    TypingSendState → List Nat → TypingSendState × List Nat
  | st, [] => (st, [])
  | st, t :: ts =>
      let r := sendTypingIndicator enabled threadId st t
      let rest := runTypingCalls enabled threadId r.1 ts
      (rest.1, if r.2 then t :: rest.2 else rest.2)

/-- Every issued request time is at least lastSent + 3000, and issued
request times are pairwise at least 3000 ms apart. -/
theorem runTypingCalls_spaced (enabled : Bool) (threadId : String) :
    ∀ (ts : List Nat) (st : TypingSendState),
      (∀ x ∈ (runTypingCalls enabled threadId st ts).2, st.lastSent + 3000 ≤ x) ∧
      List.Pairwise (fun a b => a + 3000 ≤ b)
        (runTypingCalls enabled threadId st ts).2 := by
  intro ts
  induction ts with
  | nil => intro st; simp [runTypingCalls]
  | cons t ts ih =>
    intro st
    simp only [runTypingCalls]
    by_cases hg : enabled = false ∨ threadId = ""
    · simpa [sendTypingIndicator, hg] using ih st
    · by_cases hlt : t - st.lastSent < 3000
      · simpa [sendTypingIndicator, hg, hlt] using ih st
      · have hsent : t ≥ st.lastSent + 3000 := by omega
        simp only [sendTypingIndicator, hg, hlt, if_neg, if_false, ite_false]
        obtain ⟨ihall, ihpw⟩ := ih { lastSent := t }
        simp only [if_pos, ite_true]
        constructor
        · intro x hx
          rcases List.mem_cons.1 hx with hx | hx
          · omega
          · have := ihall x hx
            simp only at this
            omega
        · refine List.pairwise_cons.2 ⟨?_, ihpw⟩
          intro b hb
          have := ihall b hb
          simp only at this
          omega

/-- C8: the client-side typing debouncer issues at most one typing request
per thread per 3-second window: across any sequence of handleTyping
invocations the issued request times are pairwise at least 3000 ms apart,
and a single invocation arriving less than 3000 ms after the last issued
request issues no request. -/
theorem typing_debounce_three_seconds (enabled : Bool) (threadId : String)
    (st : TypingSendState) (ts : List Nat) (now : Nat)
    (h : now < st.lastSent + 3000) :
    List.Pairwise (fun a b => a + 3000 ≤ b)
      (runTypingCalls enabled threadId st ts).2 ∧
    (sendTypingIndicator enabled threadId st now).2 = false := by
  refine ⟨(runTypingCalls_spaced enabled threadId ts st).2, ?_⟩
  by_cases hg : enabled = false ∨ threadId = ""
  · simp [sendTypingIndicator, hg]
  · have hlt : now - st.lastSent < 3000 := by omega
    simp [sendTypingIndicator, hg, hlt]

/-- Witness for C8: invocations at 5000, 6000 and 9000 ms with lastSent
initially 0 issue requests at 5000 and 9000 only, and an invocation at
1000 ms after a request at 0 issues nothing. -/
theorem typing_debounce_three_seconds_witness :
    List.Pairwise (fun a b => a + 3000 ≤ b)
      (runTypingCalls true "t1" { lastSent := 0 } [5000, 6000, 9000]).2 ∧
    (sendTypingIndicator true "t1" { lastSent := 0 } 1000).2 = false :=
  typing_debounce_three_seconds true "t1" { lastSent := 0 }
    [5000, 6000, 9000] 1000 (by decide)

/-! ## Drafts (src/frontend/src/hooks/useDrafts.ts) -/

/-- The localStorage draft key for a thread: the string draft_ followed by
the thread id (DRAFT_PREFIX in useDrafts.ts). -/
def draftKey (threadId : String) : String := "draft_" ++ threadId

/-- localStorage.getItem over an association-list model of localStorage. -/
def lsGet (st : List (String × String)) (k : String) : Option String :=
  (st.find? (fun p => decide (p.1 = k))).map (fun p => p.2)

/-- localStorage.setItem: the key is bound to the new value and any
previous binding of the key is dropped. -/
def lsSet (st : List (String × String)) (k v : String) :
    List (String × String) :=
  (k, v) :: st.filter (fun p => !(decide (p.1 = k)))

/-- localStorage.removeItem: every binding of the key is dropped. -/
def lsRemove (st : List (String × String)) (k : String) :
    List (String × String) :=
  st.filter (fun p => !(decide (p.1 = k)))

/-- saveDraft of useDrafts.ts: if content.trim() is truthy the content is
stored under the thread's draft key, otherwise the key is removed. -/
def saveDraft (threadId content : String) (st : List (String × String)) :
    List (String × String) :=
  if content.trim ≠ "" then lsSet st (draftKey threadId) content
  else lsRemove st (draftKey threadId)

/-- clearDraft of useDrafts.ts: removes the thread's draft key. -/
def clearDraft (threadId : String) (st : List (String × String)) :
    List (String × String) :=
  lsRemove st (draftKey threadId)

/-- loadDraft: the localStorage read performed by useDrafts.ts on mount. -/
def loadDraft (threadId : String) (st : List (String × String)) :
    Option String :=
  lsGet st (draftKey threadId)

/-- Reading a key that was just set returns the new value. -/
theorem lsGet_lsSet (st : List (String × String)) (k v : String) :
    lsGet (lsSet st k v) k = some v := by
  simp [lsGet, lsSet, List.find?_cons]

/-- Reading a key that was just removed returns nothing. -/
theorem lsGet_lsRemove (st : List (String × String)) (k : String) :
    lsGet (lsRemove st k) k = none := by
  simp only [lsGet, lsRemove, Option.map_eq_none']
  rw [List.find?_eq_none]
  intro p hp
  have := (List.mem_filter.1 hp).2
  simpa using this

/-- Searching for one key is unaffected by filtering out entries carrying a
different key. -/
theorem find_filter_ne (k k' : String) (h : k ≠ k')
    (l : List (String × String)) :
    (l.filter (fun p => !(decide (p.1 = k)))).find?
        (fun p => decide (p.1 = k')) =
      l.find? (fun p => decide (p.1 = k')) := by
  induction l with
  | nil => rfl
  | cons p l ihl =>
    by_cases hpk : p.1 = k
    · rw [List.filter_cons_of_neg (by simp [hpk]),
        List.find?_cons_of_neg _ (by simp [hpk, h]), ihl]
    · rw [List.filter_cons_of_pos (by simp [hpk])]
      by_cases hpk' : p.1 = k'
      · rw [List.find?_cons_of_pos _ (by simp [hpk']),
          List.find?_cons_of_pos _ (by simp [hpk'])]
      · rw [List.find?_cons_of_neg _ (by simp [hpk']),
          List.find?_cons_of_neg _ (by simp [hpk']), ihl]

/-- Setting a key leaves reads of any other key unchanged. -/
theorem lsGet_lsSet_ne (st : List (String × String)) (k k' v : String)
    (h : k ≠ k') :
    lsGet (lsSet st k v) k' = lsGet st k' := by
  simp only [lsGet, lsSet]
  rw [List.find?_cons_of_neg _ (by simp [h]), find_filter_ne k k' h st]

/-- Removing a key leaves reads of any other key unchanged. -/
theorem lsGet_lsRemove_ne (st : List (String × String)) (k k' : String)
    (h : k ≠ k') :
    lsGet (lsRemove st k) k' = lsGet st k' := by
  simp only [lsGet, lsRemove]
  rw [find_filter_ne k k' h st]

/-- The draft key map is injective: distinct threads have distinct keys. -/
theorem draftKey_injective (a b : String) (h : draftKey a = draftKey b) :
    a = b := by
  have hd := congrArg String.data h
  simp only [draftKey, String.data_append] at hd
  exact String.ext (List.append_cancel_left hd)

/-- C9: draft storage round-trips per thread: saving a draft whose trimmed
form is non-empty stores it under draft_T and a later load returns exactly
it; saving a trimmed-empty draft, and clearDraft, remove the stored draft;
and saving or clearing on thread T never changes the stored draft of any
other thread. -/
theorem drafts_roundtrip_and_frame (T T' c : String)
    (st : List (String × String)) (hT : T ≠ T') :
    (c.trim ≠ "" → loadDraft T (saveDraft T c st) = some c) ∧
    (c.trim = "" → loadDraft T (saveDraft T c st) = none) ∧
    loadDraft T (clearDraft T st) = none ∧
    loadDraft T' (saveDraft T c st) = loadDraft T' st ∧
    loadDraft T' (clearDraft T st) = loadDraft T' st := by
  have hkey : draftKey T ≠ draftKey T' := fun hk => hT (draftKey_injective _ _ hk)
  refine ⟨?_, ?_, ?_, ?_, ?_⟩
  · intro hc
    simp only [loadDraft, saveDraft, if_pos hc]
    exact lsGet_lsSet st (draftKey T) c
  · intro hc
    simp only [loadDraft, saveDraft, hc, ite_not, if_pos]
    exact lsGet_lsRemove st (draftKey T)
  · exact lsGet_lsRemove st (draftKey T)
  · by_cases hc : c.trim ≠ ""
    · simp only [loadDraft, saveDraft, if_pos hc]
      exact lsGet_lsSet_ne st (draftKey T) (draftKey T') c hkey
    · simp only [loadDraft, saveDraft, if_neg hc]
      exact lsGet_lsRemove_ne st (draftKey T) (draftKey T') hkey
  · exact lsGet_lsRemove_ne st (draftKey T) (draftKey T') hkey

/-- Witness for C9 at concrete threads t1 and t2 with a pre-existing draft
for t2. -/
theorem drafts_roundtrip_and_frame_witness :
    (("hi" : String).trim ≠ "" →
      loadDraft "t1" (saveDraft "t1" "hi" [("draft_t2", "yo")]) = some "hi") ∧
    (("hi" : String).trim = "" →
      loadDraft "t1" (saveDraft "t1" "hi" [("draft_t2", "yo")]) = none) ∧
    loadDraft "t1" (clearDraft "t1" [("draft_t2", "yo")]) = none ∧
    loadDraft "t2" (saveDraft "t1" "hi" [("draft_t2", "yo")]) =
      loadDraft "t2" [("draft_t2", "yo")] ∧
    loadDraft "t2" (clearDraft "t1" [("draft_t2", "yo")]) =
      loadDraft "t2" [("draft_t2", "yo")] :=
  drafts_roundtrip_and_frame "t1" "t2" "hi" [("draft_t2", "yo")] (by decide)

/-! ## Live event stream (src/frontend/src/hooks/useRealtimeEvents.ts) -/

/-- The closed union of event kinds of the live stream, one constructor per
named SSE event. -/
inductive EventKind
  | new_message
  | message_reaction
  | typing
  | read_receipt
  | new_broadcast
  | new_comment
deriving DecidableEq

/-- Modelled from the spec: the event name the server attaches to each
event kind of the live stream, per the event table of section 6 (the
backend SSE emitter, backend/src/api.rs, is not part of the source
snapshot). -/
def eventName : EventKind → String
  | .new_message => "new_message"
  | .message_reaction => "message_reaction"
  | .typing => "typing"
  | .read_receipt => "read_receipt"
  | .new_broadcast => "new_broadcast"
  | .new_comment => "new_comment"

/-- Modelled from the spec: the JSON payload fields carried by each event
kind, per the event table of section 6; the table writes message_id(s) for
the read_receipt payload, rendered here as message_ids. -/
def payloadFields : EventKind → List String
  | .new_message => ["message_id", "thread_id"]
  | .message_reaction => ["message_id", "thread_id", "emoji", "user_id"]
  | .typing => ["thread_id", "username"]
  | .read_receipt => ["thread_id", "message_ids"]
  | .new_broadcast => ["broadcast_id"]
  | .new_comment => ["broadcast_id", "comment_id"]

/-- All event kinds, in the order of the spec's event table. -/
def allEventKinds : List EventKind :=
  [.new_message, .message_reaction, .typing, .read_receipt, .new_broadcast,
   .new_comment]

/-- The event names for which useRealtimeEvents.ts registers an
addEventListener handler on the EventSource, in source order (lines 35, 73,
86, 100, 113, 138). -/
def handledEventNames : List String :=
  ["new_message", "message_reaction", "typing", "read_receipt",
   "new_broadcast", "new_comment"]

/-- C7: the live stream consists of exactly the six event kinds
new_message, message_reaction, typing, read_receipt, new_broadcast and
new_comment; their names are exactly the six names the client consumer
handles, and each kind carries the payload fields of the spec's event
table. -/
theorem live_stream_event_kinds :
    (∀ k : EventKind, k ∈ allEventKinds) ∧
    allEventKinds.map eventName = handledEventNames ∧
    payloadFields .new_message = ["message_id", "thread_id"] ∧
    payloadFields .message_reaction =
      ["message_id", "thread_id", "emoji", "user_id"] ∧
    payloadFields .typing = ["thread_id", "username"] ∧
    payloadFields .read_receipt = ["thread_id", "message_ids"] ∧
    payloadFields .new_broadcast = ["broadcast_id"] ∧
    payloadFields .new_comment = ["broadcast_id", "comment_id"] := by
  refine ⟨fun k => ?_, by decide, rfl, rfl, rfl, rfl, rfl, rfl⟩
  cases k <;> decide

/-! ## Typing events in the conversation view
    (useRealtimeEvents.ts and ConversationView.tsx) -/

/-- A typing event payload as parsed from the SSE stream, before the client
adds the is_current_user flag. -/
structure RawTypingEvent where
  thread_id : String
  username : Option String
deriving DecidableEq

/-- The detail object dispatched on the window as a typing-indicator custom
event. -/
structure TypingEventDetail where
  thread_id : String
  username : Option String
  is_current_user : Bool
deriving DecidableEq

/-- The typing listener of useRealtimeEvents.ts (line 93): it sets
data.is_current_user = false on every parsed SSE typing event before
dispatching it. -/
def dispatchTypingDetail (raw : RawTypingEvent) : TypingEventDetail :=
  { thread_id := raw.thread_id
    username := raw.username
    is_current_user := false }

/-- The typing-indicator state of ConversationView: the isTyping flag and
the typingUsername shown next to the indicator. -/
structure ConvTypingState where
  isTyping : Bool
  typingUsername : Option String
deriving DecidableEq

/-- JavaScript-style string alternative: a || b where the empty string and
a missing value are falsy. -/
def jsOrString (a b : Option String) : Option String :=
  match a with
  | some s => if s = "" then b else some s
  | none => b

/-- handleTypingEvent of ConversationView.tsx (lines 171 to 189): the state
is updated only when the event's thread_id equals the open thread and the
event is not flagged as coming from the current user; it then shows the
indicator with the event's username or the toUsername fallback.  Any other
event leaves the state unchanged. -/
def handleTypingEvent (threadId : String) (toUsername : Option String)
    (d : TypingEventDetail) (st : ConvTypingState) : ConvTypingState :=
  if d.thread_id = threadId ∧ d.is_current_user = false then
    { isTyping := true, typingUsername := jsOrString d.username toUsername }
  else st

/-- C10: every SSE typing event is dispatched with is_current_user = false;
a typing event for a different thread, or one flagged as from the current
user, leaves the conversation view's typing-indicator state unchanged; and
whenever the state does change, the event was for the open thread and not
from the current user. -/
theorem typing_event_frame (raw : RawTypingEvent) (tid : String)
    (toU : Option String) (d : TypingEventDetail) (st : ConvTypingState)
    (hne : d.thread_id ≠ tid) :
    (dispatchTypingDetail raw).is_current_user = false ∧
    handleTypingEvent tid toU d st = st ∧
    (∀ d' : TypingEventDetail, d'.is_current_user = true →
      handleTypingEvent tid toU d' st = st) ∧
    (∀ d' : TypingEventDetail, handleTypingEvent tid toU d' st ≠ st →
      d'.thread_id = tid ∧ d'.is_current_user = false) := by
  refine ⟨rfl, ?_, ?_, ?_⟩
  · simp [handleTypingEvent, hne]
  · intro d' hcu
    simp [handleTypingEvent, hcu]
  · intro d' hch
    by_cases hc : d'.thread_id = tid ∧ d'.is_current_user = false
    · exact hc
    · exact absurd (by simp [handleTypingEvent, hc]) hch

/-- Witness for C10 at concrete events: an event for thread t2 received
while thread t1 is open leaves the state unchanged, a current-user-flagged
event leaves it unchanged, and an event that does change the state is for
the open thread. -/
theorem typing_event_frame_witness :
    (dispatchTypingDetail { thread_id := "t1", username := none
      }).is_current_user = false ∧
    handleTypingEvent "t1" none
      { thread_id := "t2", username := none, is_current_user := false }
      { isTyping := false, typingUsername := none } =
      { isTyping := false, typingUsername := none } ∧
    handleTypingEvent "t1" none
      { thread_id := "t1", username := some "u", is_current_user := true }
      { isTyping := false, typingUsername := none } =
      { isTyping := false, typingUsername := none } ∧
    (({ thread_id := "t1", username := some "u", is_current_user := false } :
        TypingEventDetail).thread_id = "t1" ∧
      ({ thread_id := "t1", username := some "u", is_current_user := false } :
        TypingEventDetail).is_current_user = false) := by
  have h := typing_event_frame { thread_id := "t1", username := none } "t1"
    none { thread_id := "t2", username := none, is_current_user := false }
    { isTyping := false, typingUsername := none } (by decide)
  exact ⟨h.1, h.2.1,
    h.2.2.1 { thread_id := "t1", username := some "u", is_current_user := true }
      rfl,
    h.2.2.2 { thread_id := "t1", username := some "u", is_current_user := false }
      (by decide)⟩

/-! ## Message routing service -/

/-- The error taxonomy of the spec (section 7): NotFound, Forbidden,
Blocked, InvalidInput, Conflict, and Unavailable for a failed durable-store
call. -/
inductive OpError
  | NotFound
  | Forbidden
  | Blocked
  | InvalidInput
  | Conflict
  | Unavailable
deriving DecidableEq

/-- A live notification handed to the event hub: the target user and the
event kind published to that user's connections. -/
structure HubEvent where
  user_id : String
  event : EventKind
deriving DecidableEq

/-- The durable state visible to the routing service: the messages,
message_reactions, user_blocks, pinned_messages and message_edits
relations of the complete schema, plus a fault-injection flag recording
whether the durable store is available. -/
structure ServerState where
  messages : List StoredMessage
  reactions : List ReactionRow
  blocks : List (String × String)
  pinnedMessages : List (String × String)
  edits : List (String × String)
  storeUp : Bool
deriving DecidableEq

/-- An inbound routing-service request: the authenticated actor plus the
operation-specific fields of the table in spec section 4.5. -/
structure Request where
  actor : String
  recipient_id : String
  message_id : String
  thread_id : String
  content : String
  emoji : String
deriving DecidableEq

/-- The maximum message length, 500 characters, as enforced by the
frontend composer (maxLength 500 in ConversationView.tsx and
SendMessageModal.tsx). -/
def maxContentLength : Nat := 500

/-- Looks up a message row by id. -/
def findMessage (st : ServerState) (mid : String) : Option StoredMessage :=
  st.messages.find? (fun m => decide (m.id = mid))

/-- Whether a user is one of the two participants of a message's thread. -/
def isParticipant (u : String) (m : StoredMessage) : Bool :=
  decide (m.sender_id = some u) || decide (m.recipient_id = u)

/-- The other participant of a message's thread, relative to a user. -/
def otherParticipant (u : String) (m : StoredMessage) : String :=
  if m.sender_id = some u then m.recipient_id else m.sender_id.getD ""

/-- Mints a fresh identifier from the current number of stored messages. -/
def mintId (tag : String) (st : ServerState) : String :=
  tag ++ toString st.messages.length

/-- A routing-service operation: a validation step returning a typed error
on failure, a persistence step, and the notifications to publish for the
committed state. -/
structure RoutingOp where
  validate : Request → ServerState → Option OpError
  persist : Request → ServerState → ServerState
  notify : Request → ServerState → List HubEvent

/-- The outcome of a routing-service operation: the resulting durable
state, the events actually published, and the error returned, if any. -/
structure Outcome where
  state : ServerState
  published : List HubEvent
  error : Option OpError
deriving DecidableEq

/-- Modelled from the spec: the validate-persist-notify pipeline of the
Routing Service (section 4.5; the backend handlers, backend/src/api.rs, are
not part of the source snapshot).  A validation failure returns its typed
error with no persistence and no notification; a failed durable-store call
aborts with Unavailable before any notification; otherwise the operation
persists and then notifies for the committed state. -/
def execOp (op : RoutingOp) (req : Request) (st : ServerState) : Outcome :=
  match op.validate req st with
  | some e => { state := st, published := [], error := some e }
  | none =>
    if st.storeUp then
      let st2 := op.persist req st
      { state := st2, published := op.notify req st2, error := none }
    else
      { state := st, published := [], error := some OpError.Unavailable }

/-- Modelled from the spec: send(recipient, content) validates that the
recipient is not blocking the sender and that the content is non-empty and
within the maximum length, persists a new message on a freshly minted
thread, and notifies the recipient with new_message. -/
def sendOp : RoutingOp where
  validate req st :=
    if st.blocks.contains (req.recipient_id, req.actor) then
      some OpError.Blocked
    else if req.content = "" ∨ maxContentLength < req.content.length then
      some OpError.InvalidInput
    else none
  persist req st :=
    { st with messages := st.messages ++
        [{ id := mintId "msg" st, thread_id := mintId "thread" st,
           recipient_id := req.recipient_id, sender_id := some req.actor,
           content := req.content, created_at := "", is_read := false,
           read_at := none, edited_at := none, deleted_at := none,
           deleted_by := none }] }
  notify req _ := [{ user_id := req.recipient_id, event := .new_message }]

/-- Modelled from the spec: reply(messageId, content) validates that the
original message exists and the viewer is a thread participant, persists a
new message inheriting the thread_id, and notifies the other participant
with new_message. -/
def replyOp : RoutingOp where
  validate req st :=
    match findMessage st req.message_id with
    | none => some OpError.NotFound
    | some m => if isParticipant req.actor m then none else some OpError.Forbidden
  persist req st :=
    match findMessage st req.message_id with
    | none => st
    | some m =>
      { st with messages := st.messages ++
          [{ id := mintId "msg" st, thread_id := m.thread_id,
             recipient_id := otherParticipant req.actor m,
             sender_id := some req.actor, content := req.content,
             created_at := "", is_read := false, read_at := none,
             edited_at := none, deleted_at := none, deleted_by := none }] }
  notify req st :=
    match findMessage st req.message_id with
    | none => []
    | some m => [{ user_id := otherParticipant req.actor m,
                   event := .new_message }]

/-- Modelled from the spec: react(messageId, emoji) validates that the
target exists and is not deleted, persists the reaction upsert, and
notifies the thread participants with message_reaction. -/
def reactOp : RoutingOp where
  validate req st :=
    match findMessage st req.message_id with
    | none => some OpError.NotFound
    | some m => if m.deleted_at.isSome then some OpError.NotFound else none
  persist req st :=
    { st with reactions :=
        (react st.reactions (.message req.message_id) req.actor req.emoji) }
  notify req st :=
    match findMessage st req.message_id with
    | none => []
    | some m =>
      { user_id := m.recipient_id, event := .message_reaction } ::
        (match m.sender_id with
         | some s => [{ user_id := s, event := .message_reaction }]
         | none => [])

/-- Modelled from the spec: edit(messageId, content) validates that the
viewer is the original sender and the message is not deleted, appends the
old content to the edit history and updates content and edited_at, and
notifies the other participant. -/
def editOp : RoutingOp where
  validate req st :=
    match findMessage st req.message_id with
    | none => some OpError.NotFound
    | some m =>
      if m.deleted_at.isSome then some OpError.NotFound
      else if m.sender_id = some req.actor then none
      else some OpError.Forbidden
  persist req st :=
    match findMessage st req.message_id with
    | none => st
    | some m =>
      { st with
        messages := st.messages.map (fun mm =>
          if mm.id = req.message_id then
            { mm with content := req.content, edited_at := some "edited" }
          else mm)
        edits := st.edits ++ [(req.message_id, m.content)] }
  notify req st :=
    match findMessage st req.message_id with
    | none => []
    | some m => [{ user_id := otherParticipant req.actor m,
                   event := .new_message }]

/-- Modelled from the spec: delete(messageId) validates that the viewer is
the sender or the recipient, soft-deletes by setting deleted_at and
deleted_by, and publishes nothing. -/
def deleteOp : RoutingOp where
  validate req st :=
    match findMessage st req.message_id with
    | none => some OpError.NotFound
    | some m => if isParticipant req.actor m then none else some OpError.Forbidden
  persist req st :=
    { st with messages := st.messages.map (fun mm =>
        if mm.id = req.message_id then
          { mm with deleted_at := some "deleted", deleted_by := some req.actor }
        else mm) }
  notify _ _ := []

/-- Modelled from the spec: pin(messageId) validates that the viewer is a
participant, toggles the pin row, and publishes nothing. -/
def pinOp : RoutingOp where
  validate req st :=
    match findMessage st req.message_id with
    | none => some OpError.NotFound
    | some m => if isParticipant req.actor m then none else some OpError.Forbidden
  persist req st :=
    if st.pinnedMessages.contains (req.message_id, req.actor) then
      { st with pinnedMessages :=
          (st.pinnedMessages.filter
            (fun p => !(decide (p = (req.message_id, req.actor))))) }
    else
      { st with pinnedMessages :=
          (st.pinnedMessages ++ [(req.message_id, req.actor)]) }
  notify _ _ := []

/-- Whether a message of the given thread is an unread message addressed to
the given user. -/
def unreadFor (threadId u : String) (m : StoredMessage) : Bool :=
  decide (m.thread_id = threadId) && decide (m.recipient_id = u) && !m.is_read

/-- Modelled from the spec: markRead(threadId) validates that the viewer is
the recipient of unread messages in the thread, sets is_read and read_at on
all qualifying messages, and notifies the sender with read_receipt. -/
def markReadOp : RoutingOp where
  validate req st :=
    if st.messages.any (unreadFor req.thread_id req.actor) then none
    else some OpError.NotFound
  persist req st :=
    { st with messages := st.messages.map (fun mm =>
        if unreadFor req.thread_id req.actor mm then
          { mm with is_read := true, read_at := some "read" }
        else mm) }
  notify req st :=
    match st.messages.find? (fun m => decide (m.thread_id = req.thread_id) &&
        decide (m.recipient_id = req.actor)) with
    | none => []
    | some m =>
      match m.sender_id with
      | some s => [{ user_id := s, event := .read_receipt }]
      | none => []

/-- The seven operations of the Routing Service table in spec section
4.5. -/
def routingOps : List RoutingOp :=
  [sendOp, replyOp, reactOp, editOp, deleteOp, pinOp, markReadOp]

/-- C6: for every Routing Service operation, a validation failure returns
that typed error with the durable state unchanged and zero publish calls,
and when the durable store is down the operation aborts before
notification: nothing is published and the state is unchanged. -/
theorem routing_failure_atomicity (op : RoutingOp) (_hop : op ∈ routingOps)
    (req : Request) (st : ServerState) :
    (∀ e, op.validate req st = some e →
      execOp op req st =
        { state := st, published := [], error := some e }) ∧
    (st.storeUp = false →
      (execOp op req st).published = [] ∧ (execOp op req st).state = st) := by
  constructor
  · intro e he
    simp [execOp, he]
  · intro hdown
    cases hv : op.validate req st with
    | some e => simp [execOp, hv]
    | none => simp [execOp, hv, hdown]

/-- Witness for C6: Scenario E of the spec.  Recipient R has blocked sender
S; the send returns Blocked, creates no message row, and publishes no
event; and with the store down a valid send publishes nothing and leaves
the state unchanged. -/
theorem routing_failure_atomicity_witness :
    execOp sendOp
      { actor := "S", recipient_id := "R", message_id := "",
        thread_id := "", content := "hello", emoji := "" }
      { messages := [], reactions := [], blocks := [("R", "S")],
        pinnedMessages := [], edits := [], storeUp := true } =
      { state := { messages := [], reactions := [], blocks := [("R", "S")],
                   pinnedMessages := [], edits := [], storeUp := true },
        published := [], error := some OpError.Blocked } ∧
    (execOp sendOp
      { actor := "S", recipient_id := "R", message_id := "",
        thread_id := "", content := "hello", emoji := "" }
      { messages := [], reactions := [], blocks := [],
        pinnedMessages := [], edits := [], storeUp := false }).published = [] ∧
    (execOp sendOp
      { actor := "S", recipient_id := "R", message_id := "",
        thread_id := "", content := "hello", emoji := "" }
      { messages := [], reactions := [], blocks := [],
        pinnedMessages := [], edits := [], storeUp := false }).state =
      { messages := [], reactions := [], blocks := [],
        pinnedMessages := [], edits := [], storeUp := false } := by
  have hmem : sendOp ∈ routingOps := by
    unfold routingOps
    exact List.mem_cons_self _ _
  refine ⟨(routing_failure_atomicity sendOp hmem
      { actor := "S", recipient_id := "R", message_id := "",
        thread_id := "", content := "hello", emoji := "" }
      { messages := [], reactions := [], blocks := [("R", "S")],
        pinnedMessages := [], edits := [], storeUp := true }).1
      OpError.Blocked (by decide), ?_⟩
  exact (routing_failure_atomicity sendOp hmem
      { actor := "S", recipient_id := "R", message_id := "",
        thread_id := "", content := "hello", emoji := "" }
      { messages := [], reactions := [], blocks := [],
        pinnedMessages := [], edits := [], storeUp := false }).2 rfl

end Anonyma
